import Mathlib

/-!
Verification of the query transformation engine in
`pygeoapi/process/metrics.py` (WOUDC data-registry metrics processor).

The Python module manipulates JSON dictionaries: `wrap_filter` composes a
filter layer onto an aggregation query, `unwrap_filter` strips one layer
off a response, `MetricsProcessor.metrics_dataset` builds the base
time-bucketed query and orchestrates composition/decomposition, and
`MetricsProcessor.execute` dispatches on the `domain` input.

JSON values are embedded as the mutual inductive `Json` / `JsonList` /
`JsonObj` (association lists with Python dict semantics: first-match
lookup, in-place replacement on assignment, append when absent).
Fallible Python operations (KeyError, UnboundLocalError) are embedded as
`Except PyErr`.  The external Elasticsearch index is not part of the
source; where a claim needs its response shape it is modelled from the
spec's mirror invariant (see `AggsMirror`).
-/

set_option autoImplicit false

mutual

/-- A JSON value, as manipulated by the Python module (dicts, lists,
strings, numbers). -/
inductive Json where
  | null : Json
  | bool (b : Bool) : Json
  | num (n : Int) : Json
  | str (s : String) : Json
  | arr (xs : JsonList) : Json
  | obj (kvs : JsonObj) : Json
  deriving DecidableEq, Repr

/-- Elements of a JSON array. -/
inductive JsonList where
  | nil : JsonList
  | cons (hd : Json) (tl : JsonList) : JsonList
  deriving DecidableEq, Repr

/-- Key-value entries of a JSON object, in insertion order (Python dict). -/
inductive JsonObj where
  | nil : JsonObj
  | cons (k : String) (v : Json) (tl : JsonObj) : JsonObj
  deriving DecidableEq, Repr

end

/-- Python exceptions that the embedded code can raise.  `invalidArgument`
is the error kind the spec demands for contract violations; the embedded
source never produces it, which is what the error-handling claims are
about. -/
inductive PyErr where
  | keyError (key : String) : PyErr
  | unboundLocal (name : String) : PyErr
  | invalidArgument (msg : String) : PyErr
  deriving DecidableEq, Repr

/-- Dictionary lookup (`d[k]` read side): first entry with the given key. -/
def JsonObj.lookup : JsonObj → String → Option Json
  | .nil, _ => none
  | .cons k v tl, key => if k = key then some v else tl.lookup key

/-- Dictionary item assignment (`d[k] = v`): replaces the value in place
when the key is present, appends a new entry otherwise. -/
def JsonObj.setKey : JsonObj → String → Json → JsonObj
  | .nil, k, v => .cons k v .nil
  | .cons k0 v0 tl, k, v =>
      if k0 = k then .cons k0 v tl else .cons k0 v0 (tl.setKey k v)

/-- Dictionary key removal (`d.pop(k)` removal side). -/
def JsonObj.removeKey : JsonObj → String → JsonObj
  | .nil, _ => .nil
  | .cons k0 v0 tl, k =>
      if k0 = k then tl.removeKey k else .cons k0 v0 (tl.removeKey k)

/-- The keys of an object, in order. -/
def JsonObj.keys : JsonObj → List String
  | .nil => []
  | .cons k _ tl => k :: tl.keys

/-- Subscript read on a JSON value: only objects have entries. -/
def Json.get? : Json → String → Option Json
  | .obj kvs, k => kvs.lookup k
  | _, _ => none

/-- Subscript assignment on a JSON value (no-op on non-objects, which the
embedded code never reaches). -/
def Json.set : Json → String → Json → Json
  | .obj kvs, k, v => .obj (kvs.setKey k v)
  | j, _, _ => j

/-- Top-level keys of a JSON value (empty for non-objects). -/
def Json.keys : Json → List String
  | .obj kvs => kvs.keys
  | _ => []

/-- Follow a path of keys through nested objects. -/
def Json.getPath : Json → List String → Option Json
  | j, [] => some j
  | j, k :: ks =>
      match j.get? k with
      | none => none
      | some v => v.getPath ks

/-- Path lookup through an `Except` result (used to state properties of
query builders without existential binders). -/
def queryPath (e : Except PyErr Json) (path : List String) : Option Json :=
  match e with
  | .error _ => none
  | .ok j => j.getPath path

mutual

/-- Size measure on JSON values (used for freshness arguments). -/
def Json.size : Json → Nat
  | .null => 1
  | .bool _ => 1
  | .num _ => 1
  | .str _ => 1
  | .arr xs => 1 + xs.size
  | .obj kvs => 1 + kvs.size

/-- Size measure on JSON array elements. -/
def JsonList.size : JsonList → Nat
  | .nil => 0
  | .cons hd tl => hd.size + tl.size

/-- Size measure on JSON object entries. -/
def JsonObj.size : JsonObj → Nat
  | .nil => 0
  | .cons _ v tl => 1 + v.size + tl.size

end

/-- Object with one entry. -/
def obj1 (k : String) (v : Json) : Json :=
  Json.obj (.cons k v .nil)

/-- Object with two entries, in order. -/
def obj2 (k1 : String) (v1 : Json) (k2 : String) (v2 : Json) : Json :=
  Json.obj (.cons k1 v1 (.cons k2 v2 .nil))

/-- Object with three entries, in order. -/
def obj3 (k1 : String) (v1 : Json) (k2 : String) (v2 : Json)
    (k3 : String) (v3 : Json) : Json :=
  Json.obj (.cons k1 v1 (.cons k2 v2 (.cons k3 v3 .nil)))

/-- The `property_to_field` dict literal in `wrap_filter`
(metrics.py lines 147-152): registry from filterable dimension names to
document field paths. -/
def property_to_field (prop : String) : Option String :=
  if prop = "dataset" then some "properties.content_category"
  else if prop = "country" then some "properties.platform_country"
  else if prop = "station" then some "properties.platform_id"
  else if prop = "network" then some "properties.instrument_name"
  else none

/-- Embedding of `wrap_filter(query, prop, value)` (metrics.py lines
136-169): looks up the field for `prop` (KeyError on an unregistered
dimension), reads `query['aggregations']`, and returns a freshly built
two-key dict wrapping that subtree one filter level deeper. -/
def wrap_filter (query : Json) (prop : String) (value : Json) :
    Except PyErr Json :=
  match property_to_field prop with
  | none => .error (.keyError prop)
  | some fld =>
      match query.get? "aggregations" with
      | none => .error (.keyError "aggregations")
      | some aggs =>
          .ok (obj2 "size" (Json.num 0) "aggregations"
            (obj1 prop
              (obj2 "filter" (obj1 "match" (obj1 fld value))
                "aggregations" aggs)))

/-- Embedding of `unwrap_filter(response, category)` (metrics.py lines
172-186): copies the response and replaces its `aggregations` entry by
the node keyed by `category` inside it (KeyError when either key is
absent). -/
def unwrap_filter (response : Json) (category : String) :
    Except PyErr Json :=
  match response.get? "aggregations" with
  | none => .error (.keyError "aggregations")
  | some aggs =>
      match aggs.get? category with
      | none => .error (.keyError category)
      | some inner => .ok (response.set "aggregations" inner)

/-- Embedding of the base-query construction in
`MetricsProcessor.metrics_dataset` (metrics.py lines 264-306): the
`if timescale == 'year' ... elif timescale == 'month'` chain binds the
date interval and format; any other timescale leaves `date_interval`
unbound and the subsequent dict construction raises UnboundLocalError.
The returned dict nests `total_files` (terms on content category) over
`levels` (terms on content level) over the date histogram with its
`total_obs` sum. -/
def dataset_base_query (timescale : Json) : Except PyErr Json :=
  if timescale = Json.str "year" then
    .ok (dataset_query_shape "1y" "yyyy" "yearly")
  else if timescale = Json.str "month" then
    .ok (dataset_query_shape "1M" "yyyy-MM" "monthly")
  else
    .error (.unboundLocal "date_interval")
where
  /-- The dict literals `query_core` and `query` of `metrics_dataset`. -/
  dataset_query_shape (date_interval date_format date_aggregation_name :
      String) : Json :=
    obj2 "size" (Json.num 0) "aggregations"
      (obj1 "total_files"
        (obj2 "terms"
          (obj1 "field" (Json.str "properties.content_category.keyword"))
          "aggregations"
          (obj1 "levels"
            (obj2 "terms"
              (obj1 "field" (Json.str "properties.content_level"))
              "aggregations"
              (obj1 date_aggregation_name
                (obj2 "date_histogram"
                  (obj3 "field" (Json.str "properties.timestamp_date")
                    "calendar_interval" (Json.str date_interval)
                    "format" (Json.str date_format))
                  "aggregations"
                  (obj1 "total_obs"
                    (obj1 "sum"
                      (obj1 "field"
                        (Json.str
                          "properties.number_of_observations"))))))))))

/-- The `filterables` list of `metrics_dataset` (metrics.py line 308). -/
def filterables : List String := ["country", "station", "network"]

/-- The composition loop of `metrics_dataset` (metrics.py lines 310-312):
wrap the query once per filterable category present in `kwargs`, in list
order. -/
def applyFilters (kwargs : JsonObj) : Json → List String → Except PyErr Json
  | q, [] => .ok q
  | q, c :: cs =>
      match kwargs.lookup c with
      | none => applyFilters kwargs q cs
      | some v =>
          match wrap_filter q c v with
          | .error e => .error e
          | .ok q2 => applyFilters kwargs q2 cs

/-- The decomposition loop of `metrics_dataset` (metrics.py lines
316-319): unwrap the response once per filterable category present in
`kwargs`, in reversed list order. -/
def unwrapAll (kwargs : JsonObj) : Json → List String → Except PyErr Json
  | r, [] => .ok r
  | r, c :: cs =>
      match kwargs.lookup c with
      | none => unwrapAll kwargs r cs
      | some _ =>
          match unwrap_filter r c with
          | .error e => .error e
          | .ok r2 => unwrapAll kwargs r2 cs

/-- Embedding of `MetricsProcessor.metrics_dataset(timescale, **kwargs)`
(metrics.py lines 251-321).  The single Elasticsearch round trip
(`self.es.search`) is abstracted as the function argument `search`. -/
def metrics_dataset (search : Json → Json) (timescale : Json)
    (kwargs : JsonObj) : Except PyErr Json :=
  match dataset_base_query timescale with
  | .error e => .error e
  | .ok q0 =>
      match applyFilters kwargs q0 filterables with
      | .error e => .error e
      | .ok q => unwrapAll kwargs (search q) filterables.reverse

/-- Embedding of `MetricsProcessor.metrics_contributor` (metrics.py lines
323-339): the body is a stub returning the empty dict regardless of its
arguments. -/
def metrics_contributor (timescale dataset station network : Json) : Json :=
  Json.obj .nil

/-- Python `dict.pop(k)`: the value plus the mapping without the key;
KeyError when absent. -/
def pop (o : JsonObj) (k : String) : Except PyErr (Json × JsonObj) :=
  match o.lookup k with
  | none => .error (.keyError k)
  | some v => .ok (v, o.removeKey k)

/-- The dispatch part of `MetricsProcessor.execute` (metrics.py lines
241-249): `domain == 'dataset'` and `domain == 'contributor'` are the
only handled cases; any other domain falls off the end of the method and
returns Python `None`, embedded as `.ok none`. -/
def executeDispatch (search : Json → Json) (domain timescale : Json)
    (inputs : JsonObj) : Except PyErr (Option Json) :=
  if domain = Json.str "dataset" then
    match metrics_dataset search timescale inputs with
    | .error e => .error e
    | .ok r => .ok (some r)
  else if domain = Json.str "contributor" then
    .ok (some (metrics_contributor timescale
      ((inputs.lookup "dataset").getD Json.null)
      ((inputs.lookup "station").getD Json.null)
      ((inputs.lookup "network").getD Json.null)))
  else
    .ok none

/-- Embedding of `MetricsProcessor.execute(inputs)` (metrics.py lines
237-249).  The first component is the returned value (or the exception);
the second component is the state of the caller-supplied `inputs`
mapping after the call, reflecting the in-place `inputs.pop` mutations. -/
def execute (search : Json → Json) (inputs : JsonObj) :
    Except PyErr (Option Json) × JsonObj :=
  match pop inputs "domain" with
  | .error e => (.error e, inputs)
  | .ok (domain, inputs1) =>
      match pop inputs1 "timescale" with
      | .error e => (.error e, inputs1)
      | .ok (timescale, inputs2) =>
          (executeDispatch search domain timescale inputs2, inputs2)

/-- The three-fold composition
`compose(compose(compose(Q, d1, v1), d2, v2), d3, v3)` from the spec's
round-trip law, written with the source's `wrap_filter`. -/
def compose3 (Q : Json) (d1 : String) (v1 : Json) (d2 : String) (v2 : Json)
    (d3 : String) (v3 : Json) : Except PyErr Json :=
  match wrap_filter Q d1 v1 with
  | .error e => .error e
  | .ok q1 =>
      match wrap_filter q1 d2 v2 with
      | .error e => .error e
      | .ok q2 => wrap_filter q2 d3 v3

/-- Modelled from the spec: the external Elasticsearch index is not part
of the source under `src/`, so the shape of its responses is taken from
the spec's data-model invariant ("the Aggregation Response mirrors the
Aggregation Query's nesting exactly — every node the query declared
corresponds to one node in the response").  `AggsMirror qaggs rnode`
states that for every aggregation name declared in the query object
`qaggs`, the response node `rnode` carries a result node under the same
name, recursively mirroring that aggregation's own nested
`aggregations`.  The response may carry additional bookkeeping entries
(such as `doc_count`) alongside the mirrored nodes. -/
inductive AggsMirror : Json → Json → Prop where
  | intro (qaggs rnode : Json)
      (hsome : ∀ name qsub, qaggs.get? name = some qsub →
        (rnode.get? name).isSome = true)
      (hrec : ∀ name qsub rsub A, qaggs.get? name = some qsub →
        rnode.get? name = some rsub → qsub.get? "aggregations" = some A →
        AggsMirror A rsub) :
      AggsMirror qaggs rnode

/-- Example base query for the round-trip witness: a well-formed query
whose aggregation subtree is empty. -/
def rtQ : Json := obj1 "aggregations" (Json.obj JsonObj.nil)

/-- Innermost filter node of the composed witness query (`country`). -/
def rtN1 : Json :=
  obj2 "filter" (obj1 "match" (obj1 "properties.platform_country"
    (Json.str "CAN"))) "aggregations" (Json.obj JsonObj.nil)

/-- Aggregations object holding the `country` layer. -/
def rtA1 : Json := obj1 "country" rtN1

/-- Middle filter node of the composed witness query (`station`). -/
def rtN2 : Json :=
  obj2 "filter" (obj1 "match" (obj1 "properties.platform_id"
    (Json.str "077"))) "aggregations" rtA1

/-- Aggregations object holding the `station` layer. -/
def rtA2 : Json := obj1 "station" rtN2

/-- Outermost filter node of the composed witness query (`network`). -/
def rtN3 : Json :=
  obj2 "filter" (obj1 "match" (obj1 "properties.instrument_name"
    (Json.str "Brewer"))) "aggregations" rtA2

/-- Aggregations object holding the `network` layer. -/
def rtA3 : Json := obj1 "network" rtN3

/-- The fully composed witness query. -/
def rtQ3 : Json := obj2 "size" (Json.num 0) "aggregations" rtA3

/-- Witness response node for the `country` layer. -/
def rtRn1 : Json := obj1 "doc_count" (Json.num 2)

/-- Witness response node for the `station` layer. -/
def rtRn2 : Json := obj2 "doc_count" (Json.num 3) "country" rtRn1

/-- Witness response node for the `network` layer. -/
def rtRn3 : Json := obj2 "doc_count" (Json.num 4) "station" rtRn2

/-- Witness response aggregations object. -/
def rtRA : Json := obj1 "network" rtRn3

/-- Witness response, with `took` metadata alongside the aggregations. -/
def rtR : Json := obj2 "took" (Json.num 3) "aggregations" rtRA

/-! ## Dictionary lemmas -/

theorem JsonObj.size_lookup : ∀ {kvs : JsonObj} {k : String} {v : Json},
    kvs.lookup k = some v → v.size < (Json.obj kvs).size
  | .nil, k, v, h => by simp [JsonObj.lookup] at h
  | .cons k0 v0 tl, k, v, h => by
      simp only [JsonObj.lookup] at h
      split at h
      · cases h
        simp only [Json.size, JsonObj.size]
        omega
      · have := JsonObj.size_lookup h
        simp only [Json.size, JsonObj.size] at this ⊢
        omega

theorem JsonObj.lookup_setKey_self : ∀ (kvs : JsonObj) (k : String) (v : Json),
    (kvs.setKey k v).lookup k = some v
  | .nil, k, v => by simp [JsonObj.setKey, JsonObj.lookup]
  | .cons k0 v0 tl, k, v => by
      simp only [JsonObj.setKey]
      split
      · simp only [JsonObj.lookup]
        next h => simp [h]
      · simp only [JsonObj.lookup]
        next h => simp [h, JsonObj.lookup_setKey_self tl k v]

theorem JsonObj.lookup_setKey_other : ∀ (kvs : JsonObj) (k k2 : String) (v : Json),
    k2 ≠ k → (kvs.setKey k v).lookup k2 = kvs.lookup k2
  | .nil, k, k2, v, h => by
      simp only [JsonObj.setKey, JsonObj.lookup]
      rw [if_neg (fun hh => h hh.symm)]
  | .cons k0 v0 tl, k, k2, v, h => by
      simp only [JsonObj.setKey]
      split
      · next he =>
          simp only [JsonObj.lookup]
          split
          · next h2 => exact absurd (he ▸ h2).symm h
          · rfl
      · simp only [JsonObj.lookup]
        split
        · rfl
        · exact JsonObj.lookup_setKey_other tl k k2 v h

theorem JsonObj.lookup_removeKey_self : ∀ (kvs : JsonObj) (k : String),
    (kvs.removeKey k).lookup k = none
  | .nil, k => by simp [JsonObj.removeKey, JsonObj.lookup]
  | .cons k0 v0 tl, k => by
      simp only [JsonObj.removeKey]
      split
      · exact JsonObj.lookup_removeKey_self tl k
      · next h =>
          simp only [JsonObj.lookup]
          rw [if_neg h]
          exact JsonObj.lookup_removeKey_self tl k

theorem JsonObj.lookup_removeKey_other : ∀ (kvs : JsonObj) (k k2 : String),
    k2 ≠ k → (kvs.removeKey k).lookup k2 = kvs.lookup k2
  | .nil, k, k2, h => by simp [JsonObj.removeKey]
  | .cons k0 v0 tl, k, k2, h => by
      simp only [JsonObj.removeKey]
      split
      · next he =>
          simp only [JsonObj.lookup]
          rw [if_neg (show ¬ k0 = k2 from fun hh => h (hh ▸ he))]
          exact JsonObj.lookup_removeKey_other tl k k2 h
      · simp only [JsonObj.lookup]
        split
        · rfl
        · exact JsonObj.lookup_removeKey_other tl k k2 h

theorem Json.get?_isObj {j : Json} {k : String} {v : Json}
    (h : j.get? k = some v) : ∃ kvs, j = Json.obj kvs := by
  cases j
  case obj kvs => exact ⟨kvs, rfl⟩
  all_goals simp [Json.get?] at h

theorem Json.get?_set_self (kvs : JsonObj) (k : String) (v : Json) :
    (Json.set (Json.obj kvs) k v).get? k = some v := by
  simp only [Json.set, Json.get?]
  exact JsonObj.lookup_setKey_self kvs k v

theorem Json.get?_set_other (kvs : JsonObj) {k k2 : String} (v : Json)
    (h : k2 ≠ k) :
    (Json.set (Json.obj kvs) k v).get? k2 = (Json.obj kvs).get? k2 := by
  simp only [Json.set, Json.get?]
  exact JsonObj.lookup_setKey_other kvs k k2 v h

theorem get?_obj1_self (k : String) (v : Json) : (obj1 k v).get? k = some v := by
  simp [obj1, Json.get?, JsonObj.lookup]

theorem get?_obj1_cases {k name : String} {v w : Json}
    (h : (obj1 k v).get? name = some w) : k = name ∧ v = w := by
  simp only [obj1, Json.get?, JsonObj.lookup] at h
  split at h
  · next heq => exact ⟨heq, Option.some.inj h⟩
  · simp [JsonObj.lookup] at h

theorem get?_obj2_fst (k1 : String) (v1 : Json) (k2 : String) (v2 : Json) :
    (obj2 k1 v1 k2 v2).get? k1 = some v1 := by
  simp [obj2, Json.get?, JsonObj.lookup]

theorem get?_obj2_snd {k1 k2 : String} (v1 v2 : Json) (h : ¬ k1 = k2) :
    (obj2 k1 v1 k2 v2).get? k2 = some v2 := by
  simp only [obj2, Json.get?, JsonObj.lookup]
  rw [if_neg h]
  simp

/-! ## Unfolding lemmas for the embedded source functions -/

theorem wrap_filter_eq {q : Json} {p : String} {v : Json} {fld : String}
    {aggs : Json} (hf : property_to_field p = some fld)
    (hq : q.get? "aggregations" = some aggs) :
    wrap_filter q p v = .ok (obj2 "size" (Json.num 0) "aggregations"
      (obj1 p (obj2 "filter" (obj1 "match" (obj1 fld v))
        "aggregations" aggs))) := by
  simp [wrap_filter, hf, hq]

theorem unwrap_filter_eq {response aggs inner : Json} {category : String}
    (h1 : response.get? "aggregations" = some aggs)
    (h2 : aggs.get? category = some inner) :
    unwrap_filter response category =
      .ok (response.set "aggregations" inner) := by
  simp [unwrap_filter, h1, h2]

theorem compose3_eq {Q : Json} {d1 d2 d3 : String} {v1 v2 v3 : Json}
    {f1 f2 f3 : String} {Qaggs : Json}
    (hf1 : property_to_field d1 = some f1)
    (hf2 : property_to_field d2 = some f2)
    (hf3 : property_to_field d3 = some f3)
    (hq : Q.get? "aggregations" = some Qaggs) :
    compose3 Q d1 v1 d2 v2 d3 v3 =
      .ok (obj2 "size" (Json.num 0) "aggregations"
        (obj1 d3 (obj2 "filter" (obj1 "match" (obj1 f3 v3)) "aggregations"
          (obj1 d2 (obj2 "filter" (obj1 "match" (obj1 f2 v2)) "aggregations"
            (obj1 d1 (obj2 "filter" (obj1 "match" (obj1 f1 v1))
              "aggregations" Qaggs))))))) := by
  have e1 := wrap_filter_eq (v := v1) hf1 hq
  have h1 : (obj2 "size" (Json.num 0) "aggregations"
      (obj1 d1 (obj2 "filter" (obj1 "match" (obj1 f1 v1))
        "aggregations" Qaggs))).get? "aggregations" =
      some (obj1 d1 (obj2 "filter" (obj1 "match" (obj1 f1 v1))
        "aggregations" Qaggs)) :=
    get?_obj2_snd _ _ (by decide)
  have e2 := wrap_filter_eq (v := v2) hf2 h1
  have h2 : (obj2 "size" (Json.num 0) "aggregations"
      (obj1 d2 (obj2 "filter" (obj1 "match" (obj1 f2 v2)) "aggregations"
        (obj1 d1 (obj2 "filter" (obj1 "match" (obj1 f1 v1))
          "aggregations" Qaggs))))).get? "aggregations" =
      some (obj1 d2 (obj2 "filter" (obj1 "match" (obj1 f2 v2)) "aggregations"
        (obj1 d1 (obj2 "filter" (obj1 "match" (obj1 f1 v1))
          "aggregations" Qaggs)))) :=
    get?_obj2_snd _ _ (by decide)
  have e3 := wrap_filter_eq (v := v3) hf3 h2
  simp [compose3, e1, e2, e3]

/-! ## Mirror-invariant lemmas -/

theorem aggsMirror_nil (r : Json) : AggsMirror (Json.obj .nil) r := by
  constructor
  · intro name qsub h
    simp [Json.get?, JsonObj.lookup] at h
  · intro name qsub rsub A h _ _
    simp [Json.get?, JsonObj.lookup] at h

theorem aggsMirror_get {qaggs r : Json} (hm : AggsMirror qaggs r)
    {name : String} {qsub A : Json}
    (hq : qaggs.get? name = some qsub)
    (hA : qsub.get? "aggregations" = some A) :
    ∃ rsub, r.get? name = some rsub ∧ AggsMirror A rsub := by
  cases hm with
  | intro _ _ hsome hrec =>
      obtain ⟨rsub, hrsub⟩ := Option.isSome_iff_exists.mp (hsome name qsub hq)
      exact ⟨rsub, hrsub, hrec name qsub rsub A hq hrsub hA⟩

theorem aggsMirror_obj1 {d : String} {qn r rsub : Json}
    (hr : r.get? d = some rsub)
    (hsub : ∀ A, qn.get? "aggregations" = some A → AggsMirror A rsub) :
    AggsMirror (obj1 d qn) r := by
  constructor
  · intro name qsub h
    obtain ⟨hk, _⟩ := get?_obj1_cases h
    rw [← hk, hr]
    rfl
  · intro name qsub rsub2 A hname hrsub2 hA
    obtain ⟨hk, hv⟩ := get?_obj1_cases hname
    rw [← hk, hr] at hrsub2
    have hr2 : rsub2 = rsub := (Option.some.inj hrsub2).symm
    subst hr2
    exact hsub A (hv ▸ hA)

/-! ## Claim theorems -/

/-- Claim C3: the dataset-domain base query builder puts format `yyyy`
and calendar interval `1y` in the date-histogram bucket for
`timescale='year'`, and format `yyyy-MM` and interval `1M` for
`timescale='month'`. -/
theorem c3_dataset_date_format_interval :
    queryPath (dataset_base_query (Json.str "year"))
      ["aggregations", "total_files", "aggregations", "levels",
       "aggregations", "yearly", "date_histogram", "format"] =
      some (Json.str "yyyy") ∧
    queryPath (dataset_base_query (Json.str "year"))
      ["aggregations", "total_files", "aggregations", "levels",
       "aggregations", "yearly", "date_histogram", "calendar_interval"] =
      some (Json.str "1y") ∧
    queryPath (dataset_base_query (Json.str "month"))
      ["aggregations", "total_files", "aggregations", "levels",
       "aggregations", "monthly", "date_histogram", "format"] =
      some (Json.str "yyyy-MM") ∧
    queryPath (dataset_base_query (Json.str "month"))
      ["aggregations", "total_files", "aggregations", "levels",
       "aggregations", "monthly", "date_histogram", "calendar_interval"] =
      some (Json.str "1M") := by
  exact ⟨rfl, rfl, rfl, rfl⟩

/-- Claim C4: the spec requires a timescale outside {year, month} to fail
with an explicit InvalidArgument before any index query is issued.  The
code instead falls through its `if/elif` chain leaving `date_interval`
unbound, so the query construction crashes with UnboundLocalError — a
failure, and one that happens before any index query, but not the
explicit InvalidArgument the claim requires (code bug acknowledged by
the spec itself). -/
theorem c4_unrecognized_timescale_unbound_local :
    dataset_base_query (Json.str "week") =
      Except.error (PyErr.unboundLocal "date_interval") ∧
    (∀ (search : Json → Json) (kwargs : JsonObj),
      metrics_dataset search (Json.str "week") kwargs =
        Except.error (PyErr.unboundLocal "date_interval")) ∧
    (∀ msg, PyErr.unboundLocal "date_interval" ≠ PyErr.invalidArgument msg) := by
  refine ⟨rfl, fun search kwargs => rfl, fun msg h => by cases h⟩

/-- Claim C5 counterexample: with `domain='station'` (outside
{dataset, contributor}) and the mandatory keys present, `execute` does
not raise at all — in particular not InvalidArgument — and returns
Python `None` (no value) to the caller. -/
theorem c5_counterexample :
    (execute (fun j => j) (JsonObj.cons "domain" (Json.str "station")
      (JsonObj.cons "timescale" (Json.str "year") JsonObj.nil))).1 =
      Except.ok none ∧
    ∀ e, (execute (fun j => j) (JsonObj.cons "domain" (Json.str "station")
      (JsonObj.cons "timescale" (Json.str "year") JsonObj.nil))).1 ≠
      Except.error e := by
  have h0 : (execute (fun j => j) (JsonObj.cons "domain" (Json.str "station")
      (JsonObj.cons "timescale" (Json.str "year") JsonObj.nil))).1 =
      Except.ok none := rfl
  refine ⟨h0, fun e h => ?_⟩
  rw [h0] at h
  exact Except.noConfusion h

/-- Claim C5 as amended: for every domain value outside
{dataset, contributor}, with the two mandatory keys present, `execute`
returns Python `None` (no value) to the caller — it raises nothing, and
in particular does not raise InvalidArgument. -/
theorem c5_execute_unsupported_domain (search : Json → Json)
    (inputs : JsonObj) (d t : Json)
    (hd : inputs.lookup "domain" = some d)
    (ht : inputs.lookup "timescale" = some t)
    (hd1 : d ≠ Json.str "dataset")
    (hd2 : d ≠ Json.str "contributor") :
    (execute search inputs).1 = Except.ok none := by
  have ht2 : (inputs.removeKey "domain").lookup "timescale" = some t :=
    (JsonObj.lookup_removeKey_other inputs "domain" "timescale"
      (by decide)).trans ht
  simp [execute, pop, hd, ht2, executeDispatch, hd1, hd2]

/-- Witness for the amended C5 at `domain='station'`. -/
theorem c5_witness :
    (JsonObj.cons "domain" (Json.str "station")
      (JsonObj.cons "timescale" (Json.str "year") JsonObj.nil)).lookup
        "domain" = some (Json.str "station") ∧
    (JsonObj.cons "domain" (Json.str "station")
      (JsonObj.cons "timescale" (Json.str "year") JsonObj.nil)).lookup
        "timescale" = some (Json.str "year") ∧
    Json.str "station" ≠ Json.str "dataset" ∧
    Json.str "station" ≠ Json.str "contributor" ∧
    (execute (fun j => j) (JsonObj.cons "domain" (Json.str "station")
      (JsonObj.cons "timescale" (Json.str "year") JsonObj.nil))).1 =
      Except.ok none :=
  ⟨by decide, by decide, by decide, by decide,
    c5_execute_unsupported_domain (fun j => j)
      (JsonObj.cons "domain" (Json.str "station")
        (JsonObj.cons "timescale" (Json.str "year") JsonObj.nil))
      (Json.str "station") (Json.str "year")
      (by decide) (by decide) (by decide) (by decide)⟩

/-- Claim C6: the spec requires `domain='contributor'` with no optional
filters to return the unfiltered contributor-domain base aggregation.
The source's `metrics_contributor` is a stub whose body returns the
empty dict for every input — contradicting its own docstring — so
`execute` hands the caller an empty mapping carrying no aggregation at
all. -/
theorem c6_contributor_returns_empty :
    (∀ t d s n, metrics_contributor t d s n = Json.obj JsonObj.nil) ∧
    (∀ search : Json → Json,
      (execute search (JsonObj.cons "domain" (Json.str "contributor")
        (JsonObj.cons "timescale" (Json.str "year") JsonObj.nil))).1 =
        Except.ok (some (Json.obj JsonObj.nil))) ∧
    (Json.obj JsonObj.nil).get? "aggregations" = none := by
  exact ⟨fun t d s n => rfl, fun search => rfl, rfl⟩

/-- Claim C9: for any input query with an `aggregations` entry and any
registered dimension, the composed query has exactly the two top-level
keys `size` (value 0) and `aggregations`; every other top-level key of
the input (a `query` clause, a nonzero `size`, ...) is dropped. -/
theorem c9_wrap_filter_two_keys (q : Json) (prop : String) (v : Json)
    (fld : String) (aggs : Json)
    (hf : property_to_field prop = some fld)
    (hq : q.get? "aggregations" = some aggs) :
    ∃ w, wrap_filter q prop v = Except.ok w ∧
      w.keys = ["size", "aggregations"] ∧
      w.get? "size" = some (Json.num 0) ∧
      ∀ k, k ≠ "size" → k ≠ "aggregations" → w.get? k = none := by
  refine ⟨_, wrap_filter_eq hf hq, rfl, rfl, ?_⟩
  intro k h1 h2
  simp only [obj2, Json.get?, JsonObj.lookup]
  rw [if_neg (show ¬ "size" = k from fun hh => h1 hh.symm),
    if_neg (show ¬ "aggregations" = k from fun hh => h2 hh.symm)]

/-- Witness for C9: a query carrying an extra `query` clause and a
nonzero `size`, wrapped by the `country` dimension. -/
theorem c9_witness :
    property_to_field "country" = some "properties.platform_country" ∧
    (obj3 "query" (obj1 "match_all" (Json.obj JsonObj.nil))
      "size" (Json.num 5)
      "aggregations" (obj1 "total_files" (Json.obj JsonObj.nil))).get?
        "aggregations" = some (obj1 "total_files" (Json.obj JsonObj.nil)) ∧
    (∃ w, wrap_filter (obj3 "query" (obj1 "match_all" (Json.obj JsonObj.nil))
        "size" (Json.num 5)
        "aggregations" (obj1 "total_files" (Json.obj JsonObj.nil)))
        "country" (Json.str "CAN") = Except.ok w ∧
      w.keys = ["size", "aggregations"] ∧
      w.get? "size" = some (Json.num 0) ∧
      ∀ k, k ≠ "size" → k ≠ "aggregations" → w.get? k = none) :=
  ⟨by decide, by decide,
    c9_wrap_filter_two_keys
      (obj3 "query" (obj1 "match_all" (Json.obj JsonObj.nil))
        "size" (Json.num 5)
        "aggregations" (obj1 "total_files" (Json.obj JsonObj.nil)))
      "country" (Json.str "CAN") "properties.platform_country"
      (obj1 "total_files" (Json.obj JsonObj.nil))
      (by decide) (by decide)⟩

/-- Claim C10: decomposition only replaces the `aggregations` entry (by
the node keyed by the given dimension); every other top-level key of the
response (hit counts, timing metadata, ...) survives unchanged. -/
theorem c10_unwrap_filter_frame (response : Json) (category : String)
    (aggs inner : Json)
    (h1 : response.get? "aggregations" = some aggs)
    (h2 : aggs.get? category = some inner) :
    ∃ r, unwrap_filter response category = Except.ok r ∧
      r.get? "aggregations" = some inner ∧
      ∀ k, k ≠ "aggregations" → r.get? k = response.get? k := by
  obtain ⟨kvs, hk⟩ := Json.get?_isObj h1
  subst hk
  refine ⟨_, unwrap_filter_eq h1 h2, ?_, ?_⟩
  · exact Json.get?_set_self kvs "aggregations" inner
  · intro k hne
    exact Json.get?_set_other kvs inner hne

/-- Witness for C10: a response with `took` and `hits` metadata around
the `aggregations` entry, decomposed by `country`. -/
theorem c10_witness :
    (obj3 "took" (Json.num 12) "hits" (obj1 "total" (Json.num 100))
      "aggregations" (obj1 "country" (obj1 "doc_count" (Json.num 7)))).get?
        "aggregations" = some (obj1 "country" (obj1 "doc_count" (Json.num 7))) ∧
    (obj1 "country" (obj1 "doc_count" (Json.num 7))).get? "country" =
      some (obj1 "doc_count" (Json.num 7)) ∧
    (∃ r, unwrap_filter (obj3 "took" (Json.num 12)
        "hits" (obj1 "total" (Json.num 100))
        "aggregations" (obj1 "country" (obj1 "doc_count" (Json.num 7))))
        "country" = Except.ok r ∧
      r.get? "aggregations" = some (obj1 "doc_count" (Json.num 7)) ∧
      ∀ k, k ≠ "aggregations" →
        r.get? k = (obj3 "took" (Json.num 12)
          "hits" (obj1 "total" (Json.num 100))
          "aggregations" (obj1 "country" (obj1 "doc_count"
            (Json.num 7)))).get? k) :=
  ⟨by decide, by decide,
    c10_unwrap_filter_frame
      (obj3 "took" (Json.num 12) "hits" (obj1 "total" (Json.num 100))
        "aggregations" (obj1 "country" (obj1 "doc_count" (Json.num 7))))
      "country" (obj1 "country" (obj1 "doc_count" (Json.num 7)))
      (obj1 "doc_count" (Json.num 7))
      (by decide) (by decide)⟩

/-- Claim C7: `wrap_filter` is a pure function of its arguments in this
embedding (dicts passed by value), so the input query `Q` is trivially
unchanged by the call and the result is deterministic.  The non-trivial
content proved here: on well-formed input the call succeeds, the value
returned is a freshly built structure distinct from `Q` (a new top-level
query object, never `Q` itself), and `Q`'s aggregation subtree is
embedded in it unchanged. -/
theorem c7_wrap_filter_no_mutation (q : Json) (prop : String) (v : Json)
    (fld : String) (aggs : Json)
    (hf : property_to_field prop = some fld)
    (hq : q.get? "aggregations" = some aggs) :
    ∃ w, wrap_filter q prop v = Except.ok w ∧
      w.getPath ["aggregations", prop, "aggregations"] = some aggs ∧
      w ≠ q := by
  refine ⟨_, wrap_filter_eq hf hq, ?_, ?_⟩
  · have s1 : (obj2 "size" (Json.num 0) "aggregations"
        (obj1 prop (obj2 "filter" (obj1 "match" (obj1 fld v))
          "aggregations" aggs))).get? "aggregations" =
        some (obj1 prop (obj2 "filter" (obj1 "match" (obj1 fld v))
          "aggregations" aggs)) := get?_obj2_snd _ _ (by decide)
    have s3 : (obj2 "filter" (obj1 "match" (obj1 fld v))
        "aggregations" aggs).get? "aggregations" = some aggs :=
      get?_obj2_snd _ _ (by decide)
    simp [Json.getPath, s1, get?_obj1_self, s3]
  · intro heq
    have s1 : (obj2 "size" (Json.num 0) "aggregations"
        (obj1 prop (obj2 "filter" (obj1 "match" (obj1 fld v))
          "aggregations" aggs))).get? "aggregations" =
        some (obj1 prop (obj2 "filter" (obj1 "match" (obj1 fld v))
          "aggregations" aggs)) := get?_obj2_snd _ _ (by decide)
    rw [heq] at s1
    have ha : aggs = obj1 prop (obj2 "filter" (obj1 "match" (obj1 fld v))
        "aggregations" aggs) := Option.some.inj (hq.symm.trans s1)
    have hsz := congrArg Json.size ha
    simp only [obj1, obj2, Json.size, JsonObj.size] at hsz
    omega

/-- Witness for C7: wrapping a small dataset-shaped query by `network`. -/
theorem c7_witness :
    property_to_field "network" = some "properties.instrument_name" ∧
    (obj1 "aggregations" (obj1 "total_files" (Json.obj JsonObj.nil))).get?
      "aggregations" = some (obj1 "total_files" (Json.obj JsonObj.nil)) ∧
    (∃ w, wrap_filter (obj1 "aggregations" (obj1 "total_files"
        (Json.obj JsonObj.nil))) "network" (Json.str "Brewer") =
        Except.ok w ∧
      w.getPath ["aggregations", "network", "aggregations"] =
        some (obj1 "total_files" (Json.obj JsonObj.nil)) ∧
      w ≠ obj1 "aggregations" (obj1 "total_files" (Json.obj JsonObj.nil))) :=
  ⟨by decide, by decide,
    c7_wrap_filter_no_mutation
      (obj1 "aggregations" (obj1 "total_files" (Json.obj JsonObj.nil)))
      "network" (Json.str "Brewer") "properties.instrument_name"
      (obj1 "total_files" (Json.obj JsonObj.nil))
      (by decide) (by decide)⟩

/-- Claim C8: `execute` mutates the caller-supplied inputs mapping: it
pops `domain` and `timescale` before dispatching, so whenever both keys
were present (and the call therefore reaches the dispatch), the mapping
afterwards contains neither key — in every dispatch branch, including
the fall-through and any exception raised past the dispatch. -/
theorem c8_execute_removes_mandatory_keys (search : Json → Json)
    (inputs : JsonObj) (d t : Json)
    (hd : inputs.lookup "domain" = some d)
    (ht : inputs.lookup "timescale" = some t) :
    (execute search inputs).2.lookup "domain" = none ∧
    (execute search inputs).2.lookup "timescale" = none := by
  have ht2 : (inputs.removeKey "domain").lookup "timescale" = some t :=
    (JsonObj.lookup_removeKey_other inputs "domain" "timescale"
      (by decide)).trans ht
  have he : (execute search inputs).2 =
      (inputs.removeKey "domain").removeKey "timescale" := by
    simp [execute, pop, hd, ht2]
  rw [he]
  constructor
  · rw [JsonObj.lookup_removeKey_other _ "timescale" "domain" (by decide)]
    exact JsonObj.lookup_removeKey_self inputs "domain"
  · exact JsonObj.lookup_removeKey_self _ "timescale"

/-- Witness for C8 on a mapping that also carries a `network` filter. -/
theorem c8_witness :
    (JsonObj.cons "domain" (Json.str "dataset")
      (JsonObj.cons "timescale" (Json.str "year")
        (JsonObj.cons "network" (Json.str "Brewer") JsonObj.nil))).lookup
          "domain" = some (Json.str "dataset") ∧
    (JsonObj.cons "domain" (Json.str "dataset")
      (JsonObj.cons "timescale" (Json.str "year")
        (JsonObj.cons "network" (Json.str "Brewer") JsonObj.nil))).lookup
          "timescale" = some (Json.str "year") ∧
    ((execute (fun j => j) (JsonObj.cons "domain" (Json.str "dataset")
        (JsonObj.cons "timescale" (Json.str "year")
          (JsonObj.cons "network" (Json.str "Brewer")
            JsonObj.nil)))).2.lookup "domain" = none ∧
      (execute (fun j => j) (JsonObj.cons "domain" (Json.str "dataset")
        (JsonObj.cons "timescale" (Json.str "year")
          (JsonObj.cons "network" (Json.str "Brewer")
            JsonObj.nil)))).2.lookup "timescale" = none) :=
  ⟨by decide, by decide,
    c8_execute_removes_mandatory_keys (fun j => j)
      (JsonObj.cons "domain" (Json.str "dataset")
        (JsonObj.cons "timescale" (Json.str "year")
          (JsonObj.cons "network" (Json.str "Brewer") JsonObj.nil)))
      (Json.str "dataset") (Json.str "year")
      (by decide) (by decide)⟩

/-- Claim C2 counterexample: composing `country` (d1), then `station`
(d2), then `network` (d3) onto a well-formed base query puts the
`network` (d3) layer outermost — the top aggregation level has exactly
the key `network` and no `country` node — while the `country` (d1)
layer sits innermost, directly wrapping the base query's aggregation
subtree.  This refutes the claim's "d1 outermost, d3 innermost"
orientation at a concrete input. -/
theorem c2_counterexample :
    (queryPath (compose3 (obj1 "aggregations" (Json.obj JsonObj.nil))
        "country" (Json.str "CAN") "station" (Json.str "077")
        "network" (Json.str "Brewer")) ["aggregations"]).map Json.keys =
      some ["network"] ∧
    queryPath (compose3 (obj1 "aggregations" (Json.obj JsonObj.nil))
        "country" (Json.str "CAN") "station" (Json.str "077")
        "network" (Json.str "Brewer")) ["aggregations", "country"] =
      none ∧
    queryPath (compose3 (obj1 "aggregations" (Json.obj JsonObj.nil))
        "country" (Json.str "CAN") "station" (Json.str "077")
        "network" (Json.str "Brewer"))
      ["aggregations", "network", "aggregations", "station",
        "aggregations", "country", "aggregations"] =
      some (Json.obj JsonObj.nil) := by
  exact ⟨rfl, rfl, rfl⟩

/-- Claim C2 as amended: composing registered dimensions d1, then d2,
then d3 onto a well-formed query produces a query in which the d3
filter layer is outermost and the d1 filter layer is innermost,
directly wrapping the original base query's aggregation subtree. -/
theorem c2_compose_nesting (Q : Json) (d1 d2 d3 : String)
    (v1 v2 v3 : Json) (f1 f2 f3 : String) (Qaggs : Json)
    (hf1 : property_to_field d1 = some f1)
    (hf2 : property_to_field d2 = some f2)
    (hf3 : property_to_field d3 = some f3)
    (hq : Q.get? "aggregations" = some Qaggs) :
    compose3 Q d1 v1 d2 v2 d3 v3 =
      Except.ok (obj2 "size" (Json.num 0) "aggregations"
        (obj1 d3 (obj2 "filter" (obj1 "match" (obj1 f3 v3)) "aggregations"
          (obj1 d2 (obj2 "filter" (obj1 "match" (obj1 f2 v2)) "aggregations"
            (obj1 d1 (obj2 "filter" (obj1 "match" (obj1 f1 v1))
              "aggregations" Qaggs))))))) :=
  compose3_eq hf1 hf2 hf3 hq

/-- Witness for the amended C2 with dimensions country, station, network. -/
theorem c2_witness :
    property_to_field "country" = some "properties.platform_country" ∧
    property_to_field "station" = some "properties.platform_id" ∧
    property_to_field "network" = some "properties.instrument_name" ∧
    (obj1 "aggregations" (Json.obj JsonObj.nil)).get? "aggregations" =
      some (Json.obj JsonObj.nil) ∧
    compose3 (obj1 "aggregations" (Json.obj JsonObj.nil))
        "country" (Json.str "CAN") "station" (Json.str "077")
        "network" (Json.str "Brewer") =
      Except.ok (obj2 "size" (Json.num 0) "aggregations"
        (obj1 "network" (obj2 "filter" (obj1 "match"
            (obj1 "properties.instrument_name" (Json.str "Brewer")))
          "aggregations"
          (obj1 "station" (obj2 "filter" (obj1 "match"
              (obj1 "properties.platform_id" (Json.str "077")))
            "aggregations"
            (obj1 "country" (obj2 "filter" (obj1 "match"
                (obj1 "properties.platform_country" (Json.str "CAN")))
              "aggregations" (Json.obj JsonObj.nil)))))))) :=
  ⟨by decide, by decide, by decide, by decide,
    c2_compose_nesting (obj1 "aggregations" (Json.obj JsonObj.nil))
      "country" "station" "network"
      (Json.str "CAN") (Json.str "077") (Json.str "Brewer")
      "properties.platform_country" "properties.platform_id"
      "properties.instrument_name" (Json.obj JsonObj.nil)
      (by decide) (by decide) (by decide) (by decide)⟩

/-- Mirror construction step for a single filter layer: a response node
carrying a mirror of the nested aggregations under the dimension's name
mirrors the filter aggregation object built by `wrap_filter`. -/
theorem aggsMirror_filter_node (d : String) (F A r rsub : Json)
    (hr : r.get? d = some rsub) (hrec : AggsMirror A rsub) :
    AggsMirror (obj1 d (obj2 "filter" F "aggregations" A)) r := by
  apply aggsMirror_obj1 hr
  intro A2 hA2
  have hAe : A2 = A :=
    (Option.some.inj ((get?_obj2_snd F A (by decide)).symm.trans hA2)).symm
  rw [hAe]
  exact hrec

/-- Claim C1: round-trip law.  Composing a well-formed base query with
three distinct registered dimensions in order d1, d2, d3 and then
decomposing the index's response once per dimension in the exact
reverse order d3, d2, d1 succeeds and strips exactly the three filter
layers: the final response's aggregation subtree is the response node
computed for the base query's own aggregations — it mirrors the
unfiltered query Q's declared bucket structure, so the composition is a
no-op on structure.  The external index's response is modelled from the
spec's mirror invariant (`AggsMirror`, hypothesis `hm`). -/
theorem c1_compose_decompose_roundtrip (Q : Json) (d1 d2 d3 : String)
    (v1 v2 v3 : Json) (f1 f2 f3 : String) (Qaggs q3 q3A R RA : Json)
    (hne12 : d1 ≠ d2) (hne13 : d1 ≠ d3) (hne23 : d2 ≠ d3)
    (hf1 : property_to_field d1 = some f1)
    (hf2 : property_to_field d2 = some f2)
    (hf3 : property_to_field d3 = some f3)
    (hq : Q.get? "aggregations" = some Qaggs)
    (hc : compose3 Q d1 v1 d2 v2 d3 v3 = Except.ok q3)
    (hq3 : q3.get? "aggregations" = some q3A)
    (hR : R.get? "aggregations" = some RA)
    (hm : AggsMirror q3A RA) :
    ∃ r1 r2 r3 finalA,
      unwrap_filter R d3 = Except.ok r1 ∧
      unwrap_filter r1 d2 = Except.ok r2 ∧
      unwrap_filter r2 d1 = Except.ok r3 ∧
      r3.get? "aggregations" = some finalA ∧
      AggsMirror Qaggs finalA := by
  have hc2 := @compose3_eq Q d1 d2 d3 v1 v2 v3 f1 f2 f3 Qaggs hf1 hf2 hf3 hq
  rw [hc] at hc2
  injection hc2 with hq3w
  subst hq3w
  have gW := @get?_obj2_snd "size" "aggregations"
    (Json.num 0)
    (obj1 d3 (obj2 "filter" (obj1 "match" (obj1 f3 v3)) "aggregations"
      (obj1 d2 (obj2 "filter" (obj1 "match" (obj1 f2 v2)) "aggregations"
        (obj1 d1 (obj2 "filter" (obj1 "match" (obj1 f1 v1))
          "aggregations" Qaggs)))))) (by decide)
  have hA3 : q3A = obj1 d3 (obj2 "filter" (obj1 "match" (obj1 f3 v3))
      "aggregations" (obj1 d2 (obj2 "filter" (obj1 "match" (obj1 f2 v2))
        "aggregations" (obj1 d1 (obj2 "filter" (obj1 "match" (obj1 f1 v1))
          "aggregations" Qaggs))))) :=
    Option.some.inj (hq3.symm.trans gW)
  subst hA3
  obtain ⟨rsub3, hrs3, hm2⟩ :=
    aggsMirror_get hm (get?_obj1_self _ _) (get?_obj2_snd _ _ (by decide))
  obtain ⟨Rkvs, hRk⟩ := Json.get?_isObj hR
  subst hRk
  have u1 : unwrap_filter (Json.obj Rkvs) d3 =
      Except.ok (Json.obj (Rkvs.setKey "aggregations" rsub3)) :=
    unwrap_filter_eq hR hrs3
  have g1 : (Json.obj (Rkvs.setKey "aggregations" rsub3)).get?
      "aggregations" = some rsub3 :=
    JsonObj.lookup_setKey_self Rkvs "aggregations" rsub3
  obtain ⟨rsub2, hrs2, hm1⟩ :=
    aggsMirror_get hm2 (get?_obj1_self _ _) (get?_obj2_snd _ _ (by decide))
  have u2 : unwrap_filter (Json.obj (Rkvs.setKey "aggregations" rsub3)) d2 =
      Except.ok (Json.obj ((Rkvs.setKey "aggregations" rsub3).setKey
        "aggregations" rsub2)) :=
    unwrap_filter_eq g1 hrs2
  have g2 : (Json.obj ((Rkvs.setKey "aggregations" rsub3).setKey
      "aggregations" rsub2)).get? "aggregations" = some rsub2 :=
    JsonObj.lookup_setKey_self _ "aggregations" rsub2
  obtain ⟨rsub1, hrs1, hm0⟩ :=
    aggsMirror_get hm1 (get?_obj1_self _ _) (get?_obj2_snd _ _ (by decide))
  have u3 : unwrap_filter (Json.obj ((Rkvs.setKey "aggregations"
      rsub3).setKey "aggregations" rsub2)) d1 =
      Except.ok (Json.obj (((Rkvs.setKey "aggregations" rsub3).setKey
        "aggregations" rsub2).setKey "aggregations" rsub1)) :=
    unwrap_filter_eq g2 hrs1
  have g3 : (Json.obj (((Rkvs.setKey "aggregations" rsub3).setKey
      "aggregations" rsub2).setKey "aggregations" rsub1)).get?
      "aggregations" = some rsub1 :=
    JsonObj.lookup_setKey_self _ "aggregations" rsub1
  exact ⟨_, _, _, rsub1, u1, u2, u3, g3, hm0⟩

/-- Witness for C1: the dimensions country, station, network with an
empty-aggregation base query, against a concrete mirrored response
carrying `doc_count` bookkeeping at every filter layer. -/
theorem c1_witness :
    ("country" : String) ≠ "station" ∧
    ("country" : String) ≠ "network" ∧
    ("station" : String) ≠ "network" ∧
    property_to_field "country" = some "properties.platform_country" ∧
    property_to_field "station" = some "properties.platform_id" ∧
    property_to_field "network" = some "properties.instrument_name" ∧
    rtQ.get? "aggregations" = some (Json.obj JsonObj.nil) ∧
    compose3 rtQ "country" (Json.str "CAN") "station" (Json.str "077")
      "network" (Json.str "Brewer") = Except.ok rtQ3 ∧
    rtQ3.get? "aggregations" = some rtA3 ∧
    rtR.get? "aggregations" = some rtRA ∧
    AggsMirror rtA3 rtRA ∧
    (∃ r1 r2 r3 finalA,
      unwrap_filter rtR "network" = Except.ok r1 ∧
      unwrap_filter r1 "station" = Except.ok r2 ∧
      unwrap_filter r2 "country" = Except.ok r3 ∧
      r3.get? "aggregations" = some finalA ∧
      AggsMirror (Json.obj JsonObj.nil) finalA) := by
  have mir : AggsMirror rtA3 rtRA :=
    aggsMirror_filter_node "network"
      (obj1 "match" (obj1 "properties.instrument_name" (Json.str "Brewer")))
      rtA2 rtRA rtRn3 (by decide)
      (aggsMirror_filter_node "station"
        (obj1 "match" (obj1 "properties.platform_id" (Json.str "077")))
        rtA1 rtRn3 rtRn2 (by decide)
        (aggsMirror_filter_node "country"
          (obj1 "match" (obj1 "properties.platform_country"
            (Json.str "CAN")))
          (Json.obj JsonObj.nil) rtRn2 rtRn1 (by decide)
          (aggsMirror_nil rtRn1)))
  refine ⟨by decide, by decide, by decide, by decide, by decide, by decide,
    by decide, rfl, by decide, by decide, mir, ?_⟩
  exact c1_compose_decompose_roundtrip rtQ "country" "station" "network"
    (Json.str "CAN") (Json.str "077") (Json.str "Brewer")
    "properties.platform_country" "properties.platform_id"
    "properties.instrument_name"
    (Json.obj JsonObj.nil) rtQ3 rtA3 rtR rtRA
    (by decide) (by decide) (by decide) (by decide) (by decide) (by decide)
    (by decide) rfl (by decide) (by decide) mir
